import Mathlib

/-!
Verification of the VPN instance orchestrator (vpnaas backend).

Shallow embedding of the Go sources:
- `models.User`, `models.NewUser`, `models.UserStats` from internal/models
- `VPNManager.generateWireGuardKeys`, `generateWireGuardConfig`,
  `createVPNPod`, `DeleteUserVPN`, `CreateUserVPN` from internal/k8s
- `Server.CreateUser`, `DeleteUser`, `ListUsers`, `GetUserConfig`,
  `GetStats`, `calculateStats` from internal/api/server.go

External effects (the Kubernetes API, the entropy source, the curve25519
library, the uuid generator, the clock) are modelled as explicit
parameters; the in-memory user map is an association list; Go int and
int64 counters are modelled as `Int` (no claim here concerns overflow).
-/

namespace Vpnaas

/-- Record for a VPN user, field for field from the Go struct `models.User`.
Timestamps are naturals (the clock value handed to the constructor). -/
structure User where
  id : String
  username : String
  email : String
  status : String
  createdAt : Nat
  updatedAt : Nat
  lastLogin : Nat
  podName : String
  podIP : String
  publicKey : String
  privateKey : String
  configData : String
  dataUsage : Int
  connectionCount : Int
deriving Repr, DecidableEq

/-- Request body of the create-user endpoint, from `models.CreateUserRequest`. -/
structure CreateUserRequest where
  username : String
  email : String
deriving Repr, DecidableEq

/-- Aggregate statistics, from the Go struct `models.UserStats`. -/
structure UserStats where
  totalUsers : Int
  activeUsers : Int
  inactiveUsers : Int
  suspendedUsers : Int
  totalDataUsage : Int
  totalConnections : Int
deriving Repr, DecidableEq

/-- Constructor `models.NewUser`. The uuid produced by `uuid.New().String()`
and the clock value of `time.Now()` are explicit parameters; every other
field gets the Go zero value, as in the source. -/
def NewUser (freshId : String) (now : Nat) (username email : String) : User :=
  { id := freshId
    username := username
    email := email
    status := "active"
    createdAt := now
    updatedAt := now
    lastLogin := 0
    podName := ""
    podIP := ""
    publicKey := ""
    privateKey := ""
    configData := ""
    dataUsage := 0
    connectionCount := 0 }

/-- Configuration values the VPN manager reads through `config.GetString`. -/
structure Config where
  wireguardPort : String
  endpoint : String
  image : String
deriving Repr, DecidableEq

/-- Key pair, from the Go struct `k8s.WireGuardKeys` (both base64 strings). -/
structure WireGuardKeys where
  privateKey : String
  publicKey : String
deriving Repr, DecidableEq

/-- Alphabet of standard base64, as used by Go `base64.StdEncoding`. -/
def base64Chars : List Char :=
  "ABCDEFGHIJKLMNOPQRSTUVWXYZabcdefghijklmnopqrstuvwxyz0123456789+/".toList

/-- Character of the standard base64 alphabet at index `n`. -/
def b64c (n : Nat) : Char := base64Chars.getD n '?'

/-- Standard base64 encoding of a byte list, three bytes to four characters,
with trailing padding, as `base64.StdEncoding.EncodeToString` computes it. -/
def base64EncodeList : List Nat → List Char
  | [] => []
  | [a] => [b64c (a / 4), b64c (a % 4 * 16), '=', '=']
  | [a, b] => [b64c (a / 4), b64c (a % 4 * 16 + b / 16), b64c (b % 16 * 4), '=']
  | a :: b :: c :: rest =>
      b64c (a / 4) :: b64c (a % 4 * 16 + b / 16) ::
      b64c (b % 16 * 4 + c / 64) :: b64c (c % 64) :: base64EncodeList rest

/-- String form of the base64 encoding. -/
def base64Encode (bs : List Nat) : String := String.mk (base64EncodeList bs)

/-- Embedding of `VPNManager.generateWireGuardKeys`. The Go code allocates a
32-byte buffer, fills it from `crypto/rand` (returning the error when the
entropy source fails), derives the public key with
`curve25519.ScalarBaseMult`, and base64-encodes both. The entropy source is
modelled by `entropy` (`none` = `rand.Read` failed, `some bytes` = the
32-byte buffer was filled), and the external curve25519 library call by the
parameter `scalarBaseMult`. -/
def generateWireGuardKeys (scalarBaseMult : List Nat → List Nat)
    (entropy : Option (Fin 32 → Nat)) : Option WireGuardKeys :=
  match entropy with
  | none => none
  | some bytes =>
      let privateKey := List.ofFn bytes
      some { privateKey := base64Encode privateKey
             publicKey := base64Encode (scalarBaseMult privateKey) }

/-- Per-user address computed inside `generateWireGuardConfig`:
`fmt.Sprintf("10.0.0.%d", len(user.ID)%254+1)`. -/
def wireGuardUserIP (user : User) : String :=
  "10.0.0." ++ toString (user.id.length % 254 + 1)

/-- Embedding of `VPNManager.generateWireGuardConfig`: the rendered
configuration text, with the address from `wireGuardUserIP` and the port and
endpoint read from configuration. The Go function returns a nil error
unconditionally, so the embedding returns the string directly. -/
def generateWireGuardConfig (cfg : Config) (user : User) (keys : WireGuardKeys) : String :=
  let userIP := wireGuardUserIP user
  "[Interface]\nPrivateKey = " ++ keys.privateKey ++
  "\nAddress = " ++ userIP ++ "/24" ++
  "\nListenPort = " ++ cfg.wireguardPort ++
  "\nPostUp = iptables -A FORWARD -i %i -j ACCEPT; iptables -t nat -A POSTROUTING -o eth0 -j MASQUERADE" ++
  "\nPostDown = iptables -D FORWARD -i %i -j ACCEPT; iptables -t nat -D POSTROUTING -o eth0 -j MASQUERADE" ++
  "\n\n[Peer]\nPublicKey = " ++ keys.publicKey ++
  "\nAllowedIPs = 0.0.0.0/0" ++
  "\nEndpoint = " ++ cfg.endpoint ++ ":" ++ cfg.wireguardPort ++
  "\nPersistentKeepalive = 25\n"

/-- Observable state of the orchestration platform: the named ConfigMaps
(name and wg0.conf payload) and the named pods in the namespace. -/
structure Cluster where
  configMaps : List (String × String)
  pods : List String
deriving Repr, DecidableEq

/-- Outcomes of the external Kubernetes API calls made during one request:
whether each call errors, and the pod IP the platform reports on creation. -/
structure AdapterOutcome where
  configMapCreateError : Bool
  podCreateError : Bool
  podReadyError : Bool
  podDeleteError : Bool
  reportedPodIP : String
deriving Repr, DecidableEq

/-- Embedding of `VPNManager.createVPNPod`: create the ConfigMap
`vpn-config-<id>` holding the rendered configuration, then the pod
`vpn-<id>`, then wait for readiness; each step returns its error without
undoing the previous steps, exactly as in the source. -/
def createVPNPod (outc : AdapterOutcome) (cl : Cluster) (user : User) :
    Except String String × Cluster :=
  let configMapName := "vpn-config-" ++ user.id
  if outc.configMapCreateError then
    (Except.error "failed to create ConfigMap", cl)
  else
    let cl1 : Cluster :=
      { cl with configMaps := cl.configMaps ++ [(configMapName, user.configData)] }
    let podName := "vpn-" ++ user.id
    if outc.podCreateError then
      (Except.error "pod create failed", cl1)
    else
      let cl2 : Cluster := { cl1 with pods := cl1.pods ++ [podName] }
      if outc.podReadyError then
        (Except.error "pod not ready yet", cl2)
      else
        (Except.ok podName, cl2)

/-- Embedding of `VPNManager.CreateUserVPN`: generate keys, set them on the
user, render and store the configuration, create the pod, and on success
record the pod name and reported pod IP. Errors abort with the cluster state
reached so far. -/
def CreateUserVPN (scalarBaseMult : List Nat → List Nat) (entropy : Option (Fin 32 → Nat))
    (outc : AdapterOutcome) (cfg : Config) (cl : Cluster) (user : User) :
    Except String User × Cluster :=
  match generateWireGuardKeys scalarBaseMult entropy with
  | none => (Except.error "failed to generate WireGuard keys", cl)
  | some keys =>
      let user1 := { user with publicKey := keys.publicKey, privateKey := keys.privateKey }
      let user2 := { user1 with configData := generateWireGuardConfig cfg user1 keys }
      match createVPNPod outc cl user2 with
      | (Except.error e, cl1) => (Except.error ("failed to create VPN pod: " ++ e), cl1)
      | (Except.ok podName, cl1) =>
          (Except.ok { user2 with podName := podName, podIP := outc.reportedPodIP }, cl1)

/-- Embedding of `VPNManager.DeleteUserVPN`. Returns the result, the cluster
state, and the list of pod names the adapter was asked to delete: an empty
pod name short-circuits to success with no platform call, and a platform
error is returned with the cluster unchanged. -/
def DeleteUserVPN (outc : AdapterOutcome) (cl : Cluster) (user : User) :
    Except String Unit × Cluster × List String :=
  if user.podName = "" then
    (Except.ok (), cl, [])
  else if outc.podDeleteError then
    (Except.error "failed to delete VPN pod", cl, [user.podName])
  else
    (Except.ok (), { cl with pods := cl.pods.filter (fun p => p != user.podName) },
      [user.podName])

/-- In-memory user store of `api.Server` (the Go map `users`), as an
association list from user id to record. -/
abbrev Registry := List (String × User)

/-- Map lookup `s.users[userID]`. -/
def lookupUser (st : Registry) (id : String) : Option User :=
  match st.find? (fun p => p.1 == id) with
  | none => none
  | some p => some p.2

/-- Map assignment `s.users[user.ID] = user`: replace the binding if the key
is present, otherwise append it. -/
def insertUser (st : Registry) (id : String) (u : User) : Registry :=
  if st.any (fun p => p.1 == id) then
    st.map (fun p => if p.1 == id then (id, u) else p)
  else
    st ++ [(id, u)]

/-- Map removal `delete(s.users, userID)`. -/
def removeUser (st : Registry) (id : String) : Registry :=
  st.filter (fun p => p.1 != id)

/-- Embedding of `Server.CreateUser` from the decoded request on (the JSON
binding and its 400 path are framework glue outside this model): reject with
409 when any stored user matches on username or email, otherwise build the
user, run `CreateUserVPN`, and either fail with 500 (storing nothing) or
store the user and answer 201. Returns status code, registry, and cluster. -/
def CreateUser (scalarBaseMult : List Nat → List Nat) (entropy : Option (Fin 32 → Nat))
    (outc : AdapterOutcome) (cfg : Config) (freshId : String) (now : Nat)
    (st : Registry) (cl : Cluster) (req : CreateUserRequest) :
    Nat × Registry × Cluster :=
  if st.any (fun p => p.2.username == req.username || p.2.email == req.email) then
    (409, st, cl)
  else
    let user := NewUser freshId now req.username req.email
    match CreateUserVPN scalarBaseMult entropy outc cfg cl user with
    | (Except.error _, cl1) => (500, st, cl1)
    | (Except.ok u, cl1) => (201, insertUser st u.id u, cl1)

/-- Embedding of `Server.DeleteUser`: 404 when the id is absent; otherwise
call `DeleteUserVPN` (an error is only logged), remove the registry entry
unconditionally, and answer 200. -/
def DeleteUser (outc : AdapterOutcome) (st : Registry) (cl : Cluster) (id : String) :
    Nat × Registry × Cluster :=
  match lookupUser st id with
  | none => (404, st, cl)
  | some u =>
      let r := DeleteUserVPN outc cl u
      (200, removeUser st id, r.2.1)

/-- JSON fields serialized for one `User` per the struct tags of
`models.User`: fields tagged `omitempty` are dropped at their zero value,
numeric fields are rendered with their decimal form. -/
def userJsonFields (u : User) : List (String × String) :=
  [("id", u.id), ("username", u.username), ("email", u.email), ("status", u.status),
    ("created_at", toString u.createdAt), ("updated_at", toString u.updatedAt)] ++
  (if u.lastLogin = 0 then [] else [("last_login", toString u.lastLogin)]) ++
  (if u.podName = "" then [] else [("pod_name", u.podName)]) ++
  (if u.podIP = "" then [] else [("pod_ip", u.podIP)]) ++
  (if u.publicKey = "" then [] else [("public_key", u.publicKey)]) ++
  (if u.privateKey = "" then [] else [("private_key", u.privateKey)]) ++
  (if u.configData = "" then [] else [("config_data", u.configData)]) ++
  [("data_usage", toString u.dataUsage), ("connection_count", toString u.connectionCount)]

/-- Embedding of `Server.ListUsers`: answer 200 with every stored record
serialized in full through the struct tags of `models.User`. -/
def ListUsers (st : Registry) : Nat × List (List (String × String)) :=
  (200, st.map (fun p => userJsonFields p.2))

/-- Embedding of `Server.GetUserConfig`: 404 when the id is absent or the
configuration is empty, otherwise 200 with the configuration text. -/
def GetUserConfig (st : Registry) (id : String) : Nat × Option String :=
  match lookupUser st id with
  | none => (404, none)
  | some u => if u.configData = "" then (404, none) else (200, some u.configData)

/-- Loop body of `Server.calculateStats`: bump the total, add the data usage
and connection count, and bump the counter of the record status. -/
def statsStep (acc : UserStats) (u : User) : UserStats :=
  { totalUsers := acc.totalUsers + 1
    totalDataUsage := acc.totalDataUsage + u.dataUsage
    totalConnections := acc.totalConnections + u.connectionCount
    activeUsers := acc.activeUsers + (if u.status = "active" then 1 else 0)
    inactiveUsers := acc.inactiveUsers + (if u.status = "inactive" then 1 else 0)
    suspendedUsers := acc.suspendedUsers + (if u.status = "suspended" then 1 else 0) }

/-- Embedding of `Server.calculateStats`: fold `statsStep` over the store
starting from the zero-valued `UserStats`. -/
def calculateStats (st : Registry) : UserStats :=
  st.foldl (fun acc p => statsStep acc p.2)
    { totalUsers := 0, activeUsers := 0, inactiveUsers := 0, suspendedUsers := 0,
      totalDataUsage := 0, totalConnections := 0 }

/-- Embedding of `Server.GetStats`: answer 200 with `calculateStats`. -/
def GetStats (st : Registry) : Nat × UserStats := (200, calculateStats st)

/-! Concrete fixtures used in witnesses and counterexample runs. -/

/-- Configuration values matching the viper defaults of internal/config. -/
def cfg0 : Config :=
  { wireguardPort := "51820", endpoint := "vpn.example.com",
    image := "linuxserver/wireguard:latest" }

/-- Adapter outcome in which every platform call succeeds. -/
def okOutcome : AdapterOutcome :=
  { configMapCreateError := false, podCreateError := false, podReadyError := false,
    podDeleteError := false, reportedPodIP := "10.1.0.5" }

/-- Adapter outcome in which the pod-creation call fails. -/
def podFailOutcome : AdapterOutcome :=
  { configMapCreateError := false, podCreateError := true, podReadyError := false,
    podDeleteError := false, reportedPodIP := "" }

/-- Adapter outcome in which the pod-deletion call fails. -/
def deleteFailOutcome : AdapterOutcome :=
  { configMapCreateError := false, podCreateError := false, podReadyError := false,
    podDeleteError := true, reportedPodIP := "10.1.0.5" }

/-- Trivial stand-in for the external curve25519 scalar multiplication. -/
def smul0 : List Nat → List Nat := fun l => l

/-- Entropy source delivering a 32-byte all-zero buffer. -/
def entropy0 : Option (Fin 32 → Nat) := some (fun _ => 0)

/-- A uuid-shaped id of the usual 36 characters. -/
def uuidA : String := "11111111-1111-1111-1111-111111111111"

/-- A second, distinct uuid-shaped id, also of 36 characters. -/
def uuidB : String := "22222222-2222-2222-2222-222222222222"

/-- Empty platform state. -/
def cl0 : Cluster := { configMaps := [], pods := [] }

/-- Run of the create endpoint for alice on the empty state, all platform
calls succeeding. -/
def createA : Nat × Registry × Cluster :=
  CreateUser smul0 entropy0 okOutcome cfg0 uuidA 0 [] cl0
    { username := "alice", email := "alice@x.com" }

/-- Registry after the successful creation of alice. -/
def registryAfterA : Registry := createA.2.1

/-- Cluster after the successful creation of alice. -/
def clusterAfterA : Cluster := createA.2.2

/-- Run of the create endpoint for bob on the state after alice. -/
def createB : Nat × Registry × Cluster :=
  CreateUser smul0 entropy0 okOutcome cfg0 uuidB 1 registryAfterA clusterAfterA
    { username := "bob", email := "bob@x.com" }

/-- Registry after the successful creation of alice and bob. -/
def registryAfterAB : Registry := createB.2.1

/-- Run of the create endpoint for alice on the empty state with the
pod-creation call failing. -/
def createFailA : Nat × Registry × Cluster :=
  CreateUser smul0 entropy0 podFailOutcome cfg0 uuidA 0 [] cl0
    { username := "alice", email := "alice@x.com" }

/-- A stored user record for alice with no pod yet. -/
def sampleAlice : User := NewUser uuidA 0 "alice" "alice@x.com"

/-! Theorems settling the claims. -/

/-- C1: the claim says distinct stored non-Terminated instances have distinct
assigned addresses. It fails on the code: `generateWireGuardConfig` derives
the address as `10.0.0.(len(ID)%254+1)`, a function of the length of the id
alone, and uuid strings all have length 36. After creating alice and bob
through the create endpoint (both succeed and stay stored, statuses active),
both records carry the same address `10.0.0.37`. -/
theorem assignedAddress_collision :
    createA.1 = 201 ∧ createB.1 = 201 ∧ uuidA ≠ uuidB ∧
    (lookupUser registryAfterAB uuidA).map wireGuardUserIP = some "10.0.0.37" ∧
    (lookupUser registryAfterAB uuidB).map wireGuardUserIP = some "10.0.0.37" := by
  decide

/-- C3: the claim says the listing response carries no private key field. It
fails on the code: `models.User` tags `PrivateKey` as `private_key,omitempty`
and `ListUsers` serializes the stored records in full, so after a successful
create (which stores a non-empty private key) the listing exposes it. -/
theorem listUsers_exposes_privateKey :
    (ListUsers registryAfterA).1 = 200 ∧
    ((ListUsers registryAfterA).2.any
      (fun fs => fs.any (fun f => f.1 == "private_key" && f.2 != ""))) = true := by
  decide

/-- C4: the claim says a compute-unit creation failure leaves a Failed
instance, a deleted config artifact, and a restored address pool. It fails on
the code: when pod creation errors, `createVPNPod` returns the error without
deleting the ConfigMap it just created, `CreateUser` answers 500 and stores
nothing (so no record in any status exists), and no address pool exists at
all. Concretely: the ConfigMap survives and the registry stays empty. -/
theorem createUser_podFailure_leaks_configMap :
    createFailA.1 = 500 ∧ createFailA.2.1 = [] ∧
    (createFailA.2.2.configMaps.any (fun m => m.1 == "vpn-config-" ++ uuidA)) = true ∧
    createFailA.2.2.pods = [] := by
  decide

/-- C5: the claim says an adapter error during teardown keeps the registry
entry and surfaces the error. It fails on the code: `DeleteUser` only logs
the `DeleteUserVPN` error, removes the entry anyway and answers 200.
Concretely: deleting alice (stored with a pod by a successful create) while
the platform deletion call errors still answers 200 with the entry gone. -/
theorem deleteUser_removes_entry_despite_error :
    (DeleteUser deleteFailOutcome registryAfterA clusterAfterA uuidA).1 = 200 ∧
    lookupUser (DeleteUser deleteFailOutcome registryAfterA clusterAfterA uuidA).2.1
      uuidA = none := by
  decide

/-- C2: a create request whose username and email both match a stored record
is answered 409 with the registry and cluster untouched, so the one matching
record stays the only one for that identity. -/
theorem createUser_conflict (smul : List Nat → List Nat)
    (entropy : Option (Fin 32 → Nat)) (outc : AdapterOutcome) (cfg : Config)
    (freshId : String) (now : Nat) (st : Registry) (cl : Cluster)
    (req : CreateUserRequest) (p : String × User) (hp : p ∈ st)
    (hname : p.2.username = req.username) (hemail : p.2.email = req.email)
    (hone : st.countP
      (fun q => q.2.username == req.username && q.2.email == req.email) = 1) :
    CreateUser smul entropy outc cfg freshId now st cl req = (409, st, cl) ∧
    (CreateUser smul entropy outc cfg freshId now st cl req).2.1.countP
      (fun q => q.2.username == req.username && q.2.email == req.email) = 1 := by
  have hany : st.any
      (fun q => q.2.username == req.username || q.2.email == req.email) = true := by
    rw [List.any_eq_true]
    exact ⟨p, hp, by simp [hname, hemail]⟩
  constructor
  · unfold CreateUser
    simp [hany]
  · unfold CreateUser
    simp [hany, hone]

/-- C2 witness: creating alice a second time over a registry holding exactly
one alice record is rejected with 409 and the registry kept as it was. -/
theorem createUser_conflict_witness :
    CreateUser smul0 entropy0 okOutcome cfg0 uuidB 1 [(uuidA, sampleAlice)] cl0
      { username := "alice", email := "alice@x.com" } =
      (409, [(uuidA, sampleAlice)], cl0) ∧
    (CreateUser smul0 entropy0 okOutcome cfg0 uuidB 1 [(uuidA, sampleAlice)] cl0
      { username := "alice", email := "alice@x.com" }).2.1.countP
      (fun q => q.2.username == "alice" && q.2.email == "alice@x.com") = 1 :=
  createUser_conflict smul0 entropy0 okOutcome cfg0 uuidB 1 [(uuidA, sampleAlice)]
    cl0 { username := "alice", email := "alice@x.com" } (uuidA, sampleAlice)
    (by simp) rfl rfl (by decide)

/-- C6: deleting an id that is not in the registry answers 404 and leaves
both the registry and the cluster untouched (the embedding is total, so no
crash is possible on this path). -/
theorem deleteUser_notFound (outc : AdapterOutcome) (st : Registry)
    (cl : Cluster) (id : String) (h : lookupUser st id = none) :
    DeleteUser outc st cl id = (404, st, cl) := by
  unfold DeleteUser
  rw [h]

/-- C6 witness: deleting a never-created id from a registry holding alice
answers 404 and changes nothing. -/
theorem deleteUser_notFound_witness :
    lookupUser [(uuidA, sampleAlice)] uuidB = none ∧
    DeleteUser okOutcome [(uuidA, sampleAlice)] cl0 uuidB =
      (404, [(uuidA, sampleAlice)], cl0) :=
  ⟨by decide, deleteUser_notFound okOutcome [(uuidA, sampleAlice)] cl0 uuidB (by decide)⟩

/-- C7: `generateWireGuardKeys` errors exactly when the entropy source fails,
and on success returns the base64 of the 32 random bytes as private key and
the base64 of the curve25519 base-point scalar multiple of those bytes as
public key; the private scalar has exactly 32 bytes. -/
theorem generateWireGuardKeys_spec (scalarBaseMult : List Nat → List Nat)
    (entropy : Option (Fin 32 → Nat)) :
    (generateWireGuardKeys scalarBaseMult entropy = none ↔ entropy = none) ∧
    (∀ bytes, entropy = some bytes →
      generateWireGuardKeys scalarBaseMult entropy =
        some { privateKey := base64Encode (List.ofFn bytes)
               publicKey := base64Encode (scalarBaseMult (List.ofFn bytes)) } ∧
      (List.ofFn bytes).length = 32) := by
  cases entropy with
  | none => simp [generateWireGuardKeys]
  | some b =>
      refine ⟨by simp [generateWireGuardKeys], ?_⟩
      intro bytes hb
      cases hb
      exact ⟨rfl, by simp⟩

/-- C7 witness: with the all-zero entropy buffer and the identity in place of
the external scalar multiplication, the key pair is the base64 encoding of
the 32 bytes on both sides, and the private scalar has 32 bytes. -/
theorem generateWireGuardKeys_spec_witness :
    generateWireGuardKeys smul0 entropy0 =
      some { privateKey := base64Encode (List.ofFn (fun _ : Fin 32 => 0))
             publicKey := base64Encode (smul0 (List.ofFn (fun _ : Fin 32 => 0))) } ∧
    (List.ofFn (fun _ : Fin 32 => (0 : Nat))).length = 32 :=
  (generateWireGuardKeys_spec smul0 entropy0).2 (fun _ => 0) rfl

/-- C8: the configuration renderer is deterministic and reads nothing beyond
the instance, the keys, and the endpoint and port configuration values: two
invocations agreeing on those produce the identical string. -/
theorem generateWireGuardConfig_deterministic (cfg1 cfg2 : Config)
    (u1 u2 : User) (k1 k2 : WireGuardKeys) (hu : u1 = u2) (hk : k1 = k2)
    (hport : cfg1.wireguardPort = cfg2.wireguardPort)
    (hend : cfg1.endpoint = cfg2.endpoint) :
    generateWireGuardConfig cfg1 u1 k1 = generateWireGuardConfig cfg2 u2 k2 := by
  cases hu
  cases hk
  unfold generateWireGuardConfig
  rw [hport, hend]

/-- C8 witness: two configurations differing only in the image value render
the same text for the same user and keys. -/
theorem generateWireGuardConfig_deterministic_witness :
    generateWireGuardConfig cfg0 sampleAlice { privateKey := "P", publicKey := "Q" } =
    generateWireGuardConfig
      { wireguardPort := "51820", endpoint := "vpn.example.com", image := "other" }
      sampleAlice { privateKey := "P", publicKey := "Q" } :=
  generateWireGuardConfig_deterministic cfg0
    { wireguardPort := "51820", endpoint := "vpn.example.com", image := "other" }
    sampleAlice sampleAlice { privateKey := "P", publicKey := "Q" }
    { privateKey := "P", publicKey := "Q" } rfl rfl rfl rfl

/-- C10: a user with an empty pod name makes `DeleteUserVPN` succeed with no
platform deletion call and an unchanged cluster, for every adapter outcome,
including one whose deletion call would error. -/
theorem deleteUserVPN_noPod (outc : AdapterOutcome) (cl : Cluster) (u : User)
    (h : u.podName = "") :
    DeleteUserVPN outc cl u = (Except.ok (), cl, []) := by
  unfold DeleteUserVPN
  simp [h]

/-- C10 witness: alice before provisioning has no pod name, and deleting her
VPN succeeds with no platform call even though the adapter would error. -/
theorem deleteUserVPN_noPod_witness :
    sampleAlice.podName = "" ∧
    DeleteUserVPN deleteFailOutcome cl0 sampleAlice = (Except.ok (), cl0, []) :=
  ⟨rfl, deleteUserVPN_noPod deleteFailOutcome cl0 sampleAlice rfl⟩

/-- Total users accumulated by the stats fold: the accumulator plus the
number of records. -/
theorem foldl_statsStep_totalUsers (st : Registry) :
    ∀ acc : UserStats,
      (st.foldl (fun a p => statsStep a p.2) acc).totalUsers =
        acc.totalUsers + st.length := by
  induction st with
  | nil => intro acc; simp
  | cons hd tl ih =>
      intro acc
      rw [List.foldl_cons, ih]
      simp [statsStep]
      ring

/-- Total data usage accumulated by the stats fold: the accumulator plus the
sum of the data usages. -/
theorem foldl_statsStep_dataUsage (st : Registry) :
    ∀ acc : UserStats,
      (st.foldl (fun a p => statsStep a p.2) acc).totalDataUsage =
        acc.totalDataUsage + (st.map (fun p => p.2.dataUsage)).sum := by
  induction st with
  | nil => intro acc; simp
  | cons hd tl ih =>
      intro acc
      rw [List.foldl_cons, ih]
      simp [statsStep]
      ring

/-- Total connections accumulated by the stats fold: the accumulator plus
the sum of the connection counts. -/
theorem foldl_statsStep_connections (st : Registry) :
    ∀ acc : UserStats,
      (st.foldl (fun a p => statsStep a p.2) acc).totalConnections =
        acc.totalConnections + (st.map (fun p => p.2.connectionCount)).sum := by
  induction st with
  | nil => intro acc; simp
  | cons hd tl ih =>
      intro acc
      rw [List.foldl_cons, ih]
      simp [statsStep]
      ring

/-- Active-user count accumulated by the stats fold: the accumulator plus
the number of records with status active. -/
theorem foldl_statsStep_active (st : Registry) :
    ∀ acc : UserStats,
      (st.foldl (fun a p => statsStep a p.2) acc).activeUsers =
        acc.activeUsers + st.countP (fun p => p.2.status == "active") := by
  induction st with
  | nil => intro acc; simp
  | cons hd tl ih =>
      intro acc
      rw [List.foldl_cons, ih]
      by_cases h : hd.2.status = "active" <;>
        simp [statsStep, List.countP_cons, h] <;> ring

/-- Inactive-user count accumulated by the stats fold: the accumulator plus
the number of records with status inactive. -/
theorem foldl_statsStep_inactive (st : Registry) :
    ∀ acc : UserStats,
      (st.foldl (fun a p => statsStep a p.2) acc).inactiveUsers =
        acc.inactiveUsers + st.countP (fun p => p.2.status == "inactive") := by
  induction st with
  | nil => intro acc; simp
  | cons hd tl ih =>
      intro acc
      rw [List.foldl_cons, ih]
      by_cases h : hd.2.status = "inactive" <;>
        simp [statsStep, List.countP_cons, h] <;> ring

/-- Suspended-user count accumulated by the stats fold: the accumulator plus
the number of records with status suspended. -/
theorem foldl_statsStep_suspended (st : Registry) :
    ∀ acc : UserStats,
      (st.foldl (fun a p => statsStep a p.2) acc).suspendedUsers =
        acc.suspendedUsers + st.countP (fun p => p.2.status == "suspended") := by
  induction st with
  | nil => intro acc; simp
  | cons hd tl ih =>
      intro acc
      rw [List.foldl_cons, ih]
      by_cases h : hd.2.status = "suspended" <;>
        simp [statsStep, List.countP_cons, h] <;> ring

/-- C9: for every registry state, the stats endpoint answers 200 with the
number of stored records, the sum of their data usages, the sum of their
connection counts, and the per-status counts of records in the active,
inactive and suspended statuses. -/
theorem getStats_correct (st : Registry) :
    (GetStats st).1 = 200 ∧
    (GetStats st).2.totalUsers = (st.length : Int) ∧
    (GetStats st).2.totalDataUsage = (st.map (fun p => p.2.dataUsage)).sum ∧
    (GetStats st).2.totalConnections = (st.map (fun p => p.2.connectionCount)).sum ∧
    (GetStats st).2.activeUsers = (st.countP (fun p => p.2.status == "active") : Int) ∧
    (GetStats st).2.inactiveUsers =
      (st.countP (fun p => p.2.status == "inactive") : Int) ∧
    (GetStats st).2.suspendedUsers =
      (st.countP (fun p => p.2.status == "suspended") : Int) := by
  refine ⟨rfl, ?_, ?_, ?_, ?_, ?_, ?_⟩ <;>
    simp [GetStats, calculateStats, foldl_statsStep_totalUsers,
      foldl_statsStep_dataUsage, foldl_statsStep_connections,
      foldl_statsStep_active, foldl_statsStep_inactive, foldl_statsStep_suspended]

end Vpnaas
